import Mathlib

/-
Formal model of the intent-extraction and recipe-query orchestration
pipeline of `app.py` (a single-file recipe-finder chat application).

The Python functions are embedded shallowly:
* Python values that flow through `json.loads`/`r.json()` are modelled by
  an inductive `Json` type; Python `dict.get`, truthiness and `or` get
  explicit counterparts (`pyGet`, `truthy`, `pyOr`).
* Network and language-model calls are modelled as oracle parameters:
  a function from the request (or attempt number) to an outcome.  The
  embedded functions consume the oracle exactly where the source performs
  the corresponding `requests` call.
* Python exceptions are modelled with `Except PyErr`; `try/except` blocks
  become `match` on the `Except` value at the same place as in the source.
* Python `str` manipulation in the JSON-extraction path is modelled over
  `List Char` with structurally recursive helpers so that every function
  evaluates by kernel reduction.
-/

namespace AidobyCook

/-- JSON values, the shallow model of Python values produced by
`json.loads` and `response.json()`.  Numbers are modelled as integers
(the fields the program reads — ids, minutes, servings — are integers). -/
inductive Json where
  | null : Json
  | bool : Bool → Json
  | num : Int → Json
  | str : String → Json
  | arr : List Json → Json
  | obj : List (String × Json) → Json

/-- Python exceptions that the embedded code can raise. -/
inductive PyErr where
  | runtimeError (msg : String)
  | timeoutError
  | transportError
  | httpStatusError (status : Nat)
  | jsonDecodeError
  | attributeError
  | typeError
deriving DecidableEq

/-- Rendering of an exception used where the source interpolates `{e}`
into an f-string.  For `RuntimeError` this is the exact message; for the
`requests`-level exceptions Python would print a library-specific text,
abbreviated here to a fixed short form. -/
def errStr : PyErr → String
  | .runtimeError m => m
  | .timeoutError => "timeout"
  | .transportError => "connection error"
  | .httpStatusError s => "HTTP error " ++ toString s
  | .jsonDecodeError => "invalid JSON body"
  | .attributeError => "attribute error"
  | .typeError => "type error"

/-- First-match association-list lookup, the model of indexing a Python
dict produced by parsing JSON (such dicts have unique keys). -/
def lookupJ (k : String) : List (String × Json) → Option Json
  | [] => none
  | kv :: rest => if kv.1 = k then some kv.2 else lookupJ k rest

/-- Python truthiness on the modelled values. -/
def truthy : Json → Bool
  | .null => false
  | .bool b => b
  | .num n => n != 0
  | .str s => s ≠ ""
  | .arr l => !l.isEmpty
  | .obj l => !l.isEmpty

/-- Python `a or b`. -/
def pyOr (a b : Json) : Json := if truthy a then a else b

/-- Python `str(...)` on the modelled values, used where the source
interpolates a value into an f-string.  Containers would print their
full `repr` in Python; the program only interpolates scalars, so the
container cases use a fixed placeholder. -/
def pyStr : Json → String
  | .null => "None"
  | .bool true => "True"
  | .bool false => "False"
  | .num n => toString n
  | .str s => s
  | .arr _ => "[...]"
  | .obj _ => "\x7b...\x7d"

/-- Python `d.get(k)` (default `None`) on a parsed-JSON value that is
known to be a dict at every use site in the source; on a non-dict this
total model returns `null` (Python would raise `AttributeError`; the
embedding raises explicitly, via `pyGetE`, at the sites where a non-dict
can actually occur). -/
def pyGet (j : Json) (k : String) : Json :=
  match j with
  | .obj kvs => (lookupJ k kvs).getD .null
  | _ => .null

/-- Python `d.get(k, d0)` with an explicit default. -/
def pyGetD (j : Json) (k : String) (d0 : Json) : Json :=
  match j with
  | .obj kvs => (lookupJ k kvs).getD d0
  | _ => d0

/-- Python `d.get(k)`, raising `AttributeError` when the receiver is not
a dict — the fallible variant used where the receiver's shape is not
guaranteed by the source. -/
def pyGetE (j : Json) (k : String) : Except PyErr Json :=
  match j with
  | .obj kvs => .ok ((lookupJ k kvs).getD .null)
  | _ => .error .attributeError

/-- Python `d.get(k, d0)`, raising `AttributeError` on a non-dict. -/
def pyGetDE (j : Json) (k : String) (d0 : Json) : Except PyErr Json :=
  match j with
  | .obj kvs => .ok ((lookupJ k kvs).getD d0)
  | _ => .error .attributeError

/-- Elements of a value the source iterates as a list (an API response
list).  A non-list is modelled as yielding nothing; Python would iterate
dict keys or string characters instead, a shape the program never meets. -/
def jsonArr : Json → List Json
  | .arr l => l
  | _ => []

/-- String content of a JSON value, used when handing a parsed field to
code that requires `str` (Python would raise on other shapes; the
orchestration theorems restrict to string-typed fields). -/
def jsonToStr : Json → String
  | .str s => s
  | j => pyStr j

/-- List of strings from a JSON array field, used for `ingredients` and
`exclude` as passed to the Spoonacular helpers. -/
def asStrList : Json → List String
  | .arr l => l.map jsonToStr
  | _ => []

/-! Character-list utilities modelling the Python `str` methods used by
`analyze_user_text`.  All are structurally recursive. -/

/-- Whitespace test used by the model of `str.strip`. -/
def isWs (c : Char) : Bool := c.isWhitespace

/-- Python `s.strip()`. -/
def pyStrip (l : List Char) : List Char :=
  ((l.dropWhile isWs).reverse.dropWhile isWs).reverse

/-- Python `s.strip()` on `String`. -/
def pyStripStr (s : String) : String := String.mk (pyStrip s.toList)

/-- Leftmost occurrence of the pattern `pat` in a character list:
returns the text before the match and the text after it. -/
def findPat (pat : List Char) : List Char → Option (List Char × List Char)
  | [] => none
  | c :: rest =>
    if (c :: rest).take pat.length = pat then
      some ([], (c :: rest).drop pat.length)
    else
      match findPat pat rest with
      | none => none
      | some (p, r) => some (c :: p, r)

/-- Fuel-driven splitter; with fuel at least `l.length` it computes
Python `l.split(pat)` for a non-empty pattern. -/
def splitPatFuel (pat : List Char) : Nat → List Char → List (List Char)
  | 0, l => [l]
  | fuel + 1, l =>
    match findPat pat l with
    | none => [l]
    | some (p, r) => p :: splitPatFuel pat fuel r

/-- Python `s.split(pat)` for a non-empty pattern. -/
def pySplit (pat : List Char) (l : List Char) : List (List Char) :=
  splitPatFuel pat l.length l

/-- The backtick character. -/
def btick : Char := Char.ofNat 96

/-- The three-backtick code-fence marker. -/
def fenceChars : List Char := [btick, btick, btick]

/-- The opening-brace character. -/
def braceL : Char := Char.ofNat 123

/-- The closing-brace character. -/
def braceR : Char := Char.ofNat 125

/-- Python `s.split(sep, 2)[-1]`: the last element of a split limited
to two cuts — the text after the second occurrence of `sep` when there
are at least two occurrences, after the first when there is exactly one,
and the whole text when there is none. -/
def fenceTail (s : List Char) : List Char :=
  match findPat fenceChars s with
  | none => s
  | some (_, rest1) =>
    match findPat fenceChars rest1 with
    | none => rest1
    | some (_, rest2) => rest2

/-- Python `s.rfind(c)`: the highest index of `c`, if any. -/
def rIdxOf (c : Char) (l : List Char) : Option Nat :=
  match l.reverse.findIdx? (fun x => x = c) with
  | some i => some (l.length - 1 - i)
  | none => none

/-- Lines 75–77 of `app.py`: take the substring from the first brace to
the last brace when both occur, otherwise the whole text. -/
def braceSlice (cleaned : List Char) : List Char :=
  match cleaned.findIdx? (fun c => c = braceL), rIdxOf braceR cleaned with
  | some f, some l => (cleaned.drop f).take (l + 1 - f)
  | _, _ => cleaned

/-- Lines 72–77 of `app.py`: strip the raw model output, run the
code-fence split when the text starts with a fence, re-strip, then cut
to the brace-delimited substring. -/
def extract_json_text (raw : List Char) : List Char :=
  let cleaned := pyStrip raw
  let cleaned2 := if cleaned.take 3 = fenceChars then pyStrip (fenceTail cleaned) else cleaned
  braceSlice cleaned2

/-- Extraction rule as the specification words it (for comparison with
`extract_json_text`): strip, drop the single leading three-backtick
fence marker when present, re-strip, then cut to the brace-delimited
substring. -/
def claimed_extract_json_text (raw : List Char) : List Char :=
  let cleaned := pyStrip raw
  let cleaned2 := if cleaned.take 3 = fenceChars then pyStrip (cleaned.drop 3) else cleaned
  braceSlice cleaned2

/-- Whether a second (non-overlapping) fence marker occurs in `l`. -/
def hasSecondFence (l : List Char) : Bool :=
  match findPat fenceChars l with
  | some (_, r1) => (findPat fenceChars r1).isSome
  | none => false

/-! Model of `call_fireworks_chat` (lines 27–54 of `app.py`). -/

/-- Outcome of one HTTP attempt against the Fireworks endpoint:
either the request raised a connect/read timeout, or a response arrived
with a status code, a raw text body, and the body parsed as JSON when it
is valid JSON (`none` models `r.json()` raising). -/
inductive FwOutcome where
  | timeout
  | resp (status : Nat) (text : String) (body : Option Json)

/-- Lines 48–54 of `app.py`: pull the completion text out of the parsed
response body.  The source checks `"choices" in j and len(j["choices"])
> 0`, reads `choices[0].message.content` when `message` is a dict with
truthy `content`, falls back to `choices[0].text`, and otherwise raises
`RuntimeError("Fireworks returned no text")`.  A truthy non-string
`content`/`text` would make Python's `.strip()` raise
`AttributeError`; a non-list truthy `choices` raises on `len`/indexing
(`typeError` here). -/
def extractFwText (j : Json) : Except PyErr String :=
  match (match j with | .obj kvs => lookupJ "choices" kvs | _ => none) with
  | some (.arr (choice :: _)) =>
    (match pyGet choice "message" with
     | .obj mkvs =>
       let content := (lookupJ "content" mkvs).getD .null
       if truthy content then
         match content with
         | .str s => .ok (pyStripStr s)
         | _ => .error .attributeError
       else
         let t := pyGet choice "text"
         if truthy t then
           match t with
           | .str s => .ok (pyStripStr s)
           | _ => .error .attributeError
         else .error (.runtimeError "Fireworks returned no text")
     | _ =>
       let t := pyGet choice "text"
       if truthy t then
         match t with
         | .str s => .ok (pyStripStr s)
         | _ => .error .attributeError
       else .error (.runtimeError "Fireworks returned no text"))
  | some (.arr []) => .error (.runtimeError "Fireworks returned no text")
  | some (.str s) => if s = "" then .error (.runtimeError "Fireworks returned no text") else .error .attributeError
  | some _ => .error .typeError
  | none => .error (.runtimeError "Fireworks returned no text")

/-- Dispatch on one HTTP outcome exactly as lines 44–54 of `app.py` do:
a timeout propagates as the `requests` timeout exception, a non-200
status raises `RuntimeError` with the status and body text, an
unparseable body raises from `r.json()`, and otherwise the text is
extracted from the parsed body. -/
def fwHandle (o : FwOutcome) : Except PyErr String :=
  match o with
  | .timeout => .error .timeoutError
  | .resp status text body =>
    if status ≠ 200 then
      .error (.runtimeError ("Fireworks API error " ++ toString status ++ ": " ++ text))
    else
      match body with
      | none => .error .jsonDecodeError
      | some j => extractFwText j

/-- Model of `call_fireworks_chat` (lines 27–54).  The prompts,
`max_tokens` and `temperature` only shape the outbound payload and are
absorbed into the oracle `net`, which gives the outcome of the `i`-th
HTTP attempt; the source performs exactly one `requests.post`, so only
`net 0` is consulted.  An empty API key raises before any request. -/
def call_fireworks_chat (apiKey : String) (net : Nat → FwOutcome) : Except PyErr String :=
  if apiKey = "" then .error (.runtimeError "FIREWORKS_API_KEY not set in environment")
  else fwHandle (net 0)

/-- Client behaviour as the specification words it (for comparison with
`call_fireworks_chat`): up to 2 additional attempts, retrying only on a
timeout, never on a status code; `retries` counts the attempts still
allowed after the current one. -/
def claimedFwGo (net : Nat → FwOutcome) : Nat → Nat → Except PyErr String
  | i, 0 => fwHandle (net i)
  | i, retries + 1 =>
    match net i with
    | .timeout => claimedFwGo net (i + 1) retries
    | o => fwHandle o

/-- Language-model client as the specification describes it: one call
with up to 2 retries on timeout only. -/
def claimed_call_with_retries (apiKey : String) (net : Nat → FwOutcome) : Except PyErr String :=
  if apiKey = "" then .error (.runtimeError "FIREWORKS_API_KEY not set in environment")
  else claimedFwGo net 0 2

/-! Model of `analyze_user_text` (lines 70–87) and its call site
(lines 338–344). -/

/-- Oracle for `json.loads`: `none` models the parse raising. -/
def JLoads : Type := List Char → Option Json

/-- The fallback intent dict of lines 81 and 344 of `app.py`. -/
def fallbackIntent (user_text : String) : Json :=
  .obj
    [ ("intent", .str "find_recipe")
    , ("ingredients", .arr [.str user_text])
    , ("dish", .null)
    , ("exclude", .arr [])
    , ("message", .str ("Searching for recipes based on: " ++ user_text)) ]

/-- Python `parsed.setdefault(k, v)`: insert `(k, v)` only when `k` is
absent. -/
def pySetdefault (kvs : List (String × Json)) (k : String) (v : Json) : List (String × Json) :=
  if (lookupJ k kvs).isSome then kvs else kvs ++ [(k, v)]

/-- Python `parsed.get(k)` on the assoc-list representation. -/
def dictGet (kvs : List (String × Json)) (k : String) : Json :=
  (lookupJ k kvs).getD .null

/-- Lines 82–86 of `app.py`: fill in the five intent fields when absent.
Each `setdefault` value is computed as the source computes it
(`parsed.get(k) or default`; for `dish` the value is `parsed.get("dish")`
itself). -/
def applyDefaults (kvs0 : List (String × Json)) : List (String × Json) :=
  let kvs1 := pySetdefault kvs0 "ingredients" (pyOr (dictGet kvs0 "ingredients") (Json.arr []))
  let kvs2 := pySetdefault kvs1 "exclude" (pyOr (dictGet kvs1 "exclude") (Json.arr []))
  let kvs3 := pySetdefault kvs2 "dish" (dictGet kvs2 "dish")
  let kvs4 := pySetdefault kvs3 "message" (pyOr (dictGet kvs3 "message") (Json.str ""))
  pySetdefault kvs4 "intent" (pyOr (dictGet kvs4 "intent") (Json.str "find_recipe"))

/-- Model of `analyze_user_text` (lines 70–87).  An error from the
Fireworks call propagates; a `json.loads` failure returns the fallback
dict; loading a non-dict JSON value makes the subsequent `setdefault`
raise `AttributeError` (propagated); otherwise the defaults are applied
to the parsed dict. -/
def analyze_user_text (fwKey : String) (loads : JLoads) (fwNet : Nat → FwOutcome)
    (user_text : String) : Except PyErr Json :=
  match call_fireworks_chat fwKey fwNet with
  | .error e => .error e
  | .ok raw =>
    let json_text := extract_json_text raw.toList
    match loads json_text with
    | none => .ok (fallbackIntent user_text)
    | some (.obj kvs) => .ok (.obj (applyDefaults kvs))
    | some _ => .error .attributeError

/-- Lines 338–344 of `app.py`: the analysis step of a turn.  The call to
`analyze_user_text` sits in a `try` whose `except` shows a UI error and
substitutes the same fallback dict, so the step as a whole is total.
Returns the parsed dict together with the UI errors shown. -/
def analysisPhase (fwKey : String) (loads : JLoads) (fwNet : Nat → FwOutcome)
    (user_input : String) : Json × List String :=
  match analyze_user_text fwKey loads fwNet user_input with
  | .ok parsed => (parsed, [])
  | .error e => (fallbackIntent user_input, ["Analysis error: " ++ errStr e])

/-! Model of the Spoonacular helpers (lines 89–120 of `app.py`). -/

/-- An outbound Spoonacular request: the path under the base URL and the
query parameters, in the order the source builds them.  The
`urlencode`/`params=` encoding step is left abstract — the oracle sees
the parameters themselves. -/
structure SpoonReq where
  path : String
  params : List (String × String)
deriving DecidableEq

/-- Outcome of a Spoonacular HTTP call: a transport-level exception from
`requests.get`, or a response with a status code and its body parsed as
JSON when valid (`none` models `r.json()` raising). -/
inductive NetOut where
  | err
  | resp (status : Nat) (body : Option Json)

/-- Shared response handling of all three Spoonacular helpers: a
transport error propagates, `r.raise_for_status()` raises on a 4xx/5xx
status, then `r.json()` parses the body. -/
def spoonHandle (o : NetOut) : Except PyErr Json :=
  match o with
  | .err => .error .transportError
  | .resp status body =>
    if 400 ≤ status ∧ status < 600 then .error (.httpStatusError status)
    else
      match body with
      | some j => .ok j
      | none => .error .jsonDecodeError

/-- Python `i.replace(" ", "+")`. -/
def replaceSpacePlus (s : String) : String :=
  String.mk (s.toList.map (fun c => if c = ' ' then '+' else c))

/-- Line 92 of `app.py`: the comma-joined, plus-encoded ingredient CSV
(empty when the list is empty). -/
def ingCsv (ingredients : List String) : String :=
  if ingredients.isEmpty then ""
  else String.intercalate "," (ingredients.map replaceSpacePlus)

/-- Request built by `spoon_search_by_ingredients` (lines 92–102). -/
def ingredientsReq (apiKey : String) (ingredients exclude : List String) (number : Nat) : SpoonReq :=
  let base :=
    [ ("ingredients", ingCsv ingredients)
    , ("number", toString number)
    , ("ranking", "1")
    , ("ignorePantry", "True")
    , ("apiKey", apiKey) ]
  { path := "/recipes/findByIngredients"
  , params := if exclude.isEmpty then base else base ++ [("excludeIngredients", String.intercalate "," exclude)] }

/-- Model of `spoon_search_by_ingredients` (lines 89–105): raises
`RuntimeError` when no Spoonacular credential is configured, otherwise
performs the request and returns the parsed body. -/
def spoon_search_by_ingredients (apiKey : String) (ingredients exclude : List String)
    (number : Nat) (net : SpoonReq → NetOut) : Except PyErr Json :=
  if apiKey = "" then .error (.runtimeError "SPOONACULAR_API_KEY not set in environment")
  else spoonHandle (net (ingredientsReq apiKey ingredients exclude number))

/-- Request built by `spoon_search_by_query` (lines 108–109). -/
def queryReq (apiKey : String) (query : String) (number : Nat) : SpoonReq :=
  { path := "/recipes/complexSearch"
  , params := [("query", query), ("number", toString number), ("apiKey", apiKey)] }

/-- Response handling of `spoon_search_by_query`: after the shared
handling, `data.get("results", [])` is returned. -/
def spoonHandleQuery (o : NetOut) : Except PyErr Json :=
  (spoonHandle o).map (fun j => pyGetD j "results" (Json.arr []))

/-- Model of `spoon_search_by_query` (lines 107–113): no credential
check — the (possibly empty) API key is sent as a parameter. -/
def spoon_search_by_query (apiKey : String) (query : String) (number : Nat)
    (net : SpoonReq → NetOut) : Except PyErr Json :=
  spoonHandleQuery (net (queryReq apiKey query number))

/-- Request built by `spoon_get_recipe_information` (lines 116–118);
the recipe id is interpolated into the URL path. -/
def informationReq (apiKey : String) (recipe_id : Json) : SpoonReq :=
  { path := "/recipes/" ++ pyStr recipe_id ++ "/information"
  , params := [("apiKey", apiKey), ("includeNutrition", "False")] }

/-- Model of `spoon_get_recipe_information` (lines 115–120). -/
def spoon_get_recipe_information (apiKey : String) (recipe_id : Json)
    (net : SpoonReq → NetOut) : Except PyErr Json :=
  spoonHandle (net (informationReq apiKey recipe_id))

/-! Model of `format_recipe_for_chat` (lines 122–156 of `app.py`). -/

/-- Lines 127–129: one ingredient entry — `originalString` when truthy,
otherwise the amount/unit/name f-string (absent parts default to `""`,
evaluation raises `AttributeError` on a non-dict entry exactly where
Python's `.get` would). -/
def ingLineE (ing : Json) : Except PyErr Json := do
  let o ← pyGetE ing "originalString"
  if truthy o then pure o
  else do
    let a ← pyGetDE ing "amount" (Json.str "")
    let u ← pyGetDE ing "unit" (Json.str "")
    let n ← pyGetDE ing "name" (Json.str "")
    pure (.str (pyStr a ++ " " ++ pyStr u ++ " " ++ pyStr n))

/-- Lines 130–135: the structured steps, flattened over the
`analyzedInstructions` sections in order; skipped entirely unless
`analyzedInstructions` is a non-empty list. -/
def structuredStepsE (info : Json) : Except PyErr (List Json) := do
  let ai ← pyGetDE info "analyzedInstructions" (Json.arr [])
  match ai with
  | .arr sections =>
    if sections.isEmpty then pure []
    else do
      let stepLists ← sections.mapM (fun sec => do
        let ss ← pyGetDE sec "steps" (Json.arr [])
        (jsonArr ss).mapM (fun st => pyGetE st "step"))
      pure stepLists.flatten
  | _ => pure []

/-- Lines 130–139: the steps — structured when present, otherwise the
flat `instructions` string split on `". "` with blank pieces dropped
(a truthy non-string `instructions` would make `.split` raise). -/
def stepsOfE (info : Json) : Except PyErr (List Json) := do
  let s ← structuredStepsE info
  if s.isEmpty then do
    let instr ← pyGetE info "instructions"
    if truthy instr then
      match instr with
      | .str t =>
        pure ((pySplit ('.' :: [' ']) t.toList).filterMap (fun piece =>
          let p := pyStrip piece
          if p.isEmpty then none else some (Json.str (String.mk p))))
      | _ => .error .attributeError
    else pure []
  else pure s

/-- Lines 151–152: the numbered step lines, `enumerate(steps, 1)`. -/
def numberedSteps (steps : List Json) : List String :=
  steps.enum.map (fun p => toString (p.1 + 1) ++ ". " ++ pyStr p.2)

/-- The `parts` list of `format_recipe_for_chat` (lines 140–155),
assembled in source order from the already-extracted pieces. -/
def formatParts (title ready servings source : Json) (ingredients steps : List Json) :
    List String :=
  let parts := ["**" ++ pyStr title ++ "**"]
  let parts := if truthy ready then parts ++ ["⏱ Ready in: " ++ pyStr ready ++ " minutes"] else parts
  let parts := if truthy servings then parts ++ ["🍽 Serves: " ++ pyStr servings] else parts
  let parts := parts ++ ["**Ingredients:**"] ++ ingredients.map (fun a => "- " ++ pyStr a)
  let parts := if steps.isEmpty then parts else parts ++ ["**Steps:**"] ++ numberedSteps steps
  let parts := if truthy source then parts ++ ["🔗 Source: " ++ pyStr source] else parts
  parts

/-- Model of `format_recipe_for_chat` (lines 122–156): the fields and
blocks are extracted in source order (any raise propagates at the same
point as in Python), the `parts` list is assembled, and the parts are
joined with a blank line. -/
def format_recipe_for_chat (info : Json) : Except PyErr String :=
  match pyGetDE info "title" (Json.str "Recipe") with
  | .error e => .error e
  | .ok title =>
    match pyGetE info "readyInMinutes" with
    | .error e => .error e
    | .ok ready =>
      match pyGetE info "servings" with
      | .error e => .error e
      | .ok servings =>
        match pyGetDE info "extendedIngredients" (Json.arr []) with
        | .error e => .error e
        | .ok extIngs =>
          match (jsonArr extIngs).mapM ingLineE with
          | .error e => .error e
          | .ok ingredients =>
            match stepsOfE info with
            | .error e => .error e
            | .ok steps =>
              match pyGetE info "sourceUrl" with
              | .error e => .error e
              | .ok source =>
                .ok (String.intercalate "\n\n" (formatParts title ready servings source ingredients steps))

/-! Model of one turn of the form-submit handler (lines 336–391 of
`app.py`). -/

/-- Line 361/366/371: the per-result metadata dict
`{"id": ..., "title": ..., "image": ...}`. -/
structure RecipeMeta where
  id : Json
  title : Json
  image : Json

/-- Metadata extracted from one search-result entry. -/
def metaOfJson (r : Json) : RecipeMeta :=
  { id := pyGet r "id", title := pyGet r "title", image := pyGet r "image" }

/-- External calls performed during the search/detail part of a turn,
recorded at each call site of the embedding. -/
inductive ExtCall where
  | spoonByIngredients (ingredients exclude : List String) (number : Nat)
  | spoonByQuery (query : String) (number : Nat)
  | spoonInformation (id : Json)
  | fireworksGeneral (userPrompt : String)

/-- Output of the search part of a turn (lines 350–379): the collected
recipe metadata, the transcript entries appended (only the `general`
branch appends here), the UI errors shown, and the external calls made. -/
structure SearchOut where
  metas : List RecipeMeta
  gen : List Json
  errs : List String
  calls : List ExtCall

/-- Line 350 routing test `intent in ("find_recipe", "modify_recipe")`
(Python equality of an arbitrary value with a string). -/
def isFindOrModify : Json → Bool
  | .str s => s = "find_recipe" || s = "modify_recipe"
  | _ => false

/-- Line 367 routing test `intent == "specific_recipe"`. -/
def isSpecific : Json → Bool
  | .str s => s = "specific_recipe"
  | _ => false

/-- Lines 353 and 363/368: the free-text query `dish or user_input`,
where `dish = parsed.get("dish") or None`; `urlencode` applies `str` to
the value. -/
def searchQueryOf (parsed : Json) (user_input : String) : String :=
  pyStr (pyOr (pyOr (pyGet parsed "dish") Json.null) (.str user_input))

/-- Lines 350–379 of `app.py`: route on the parsed intent.
`find_recipe`/`modify_recipe` with truthy `ingredients` searches by
ingredients (3 results), otherwise by free text (3 results);
`specific_recipe` searches by free text (1 result); anything else (the
`general` intent) skips recipe search and makes one generic-prompt
Fireworks call whose text is appended as a transcript entry.  A search
failure is shown as a UI error and leaves the metadata list empty. -/
def searchPhase (fwKey spoonKey : String) (fwG : Nat → FwOutcome) (net : SpoonReq → NetOut)
    (user_input : String) (parsed : Json) : SearchOut :=
  let intent := pyGet parsed "intent"
  let ingredientsJ := pyOr (pyGet parsed "ingredients") (Json.arr [])
  let excludeJ := pyOr (pyGet parsed "exclude") (Json.arr [])
  if isFindOrModify intent then
    if truthy ingredientsJ then
      let ings := asStrList ingredientsJ
      let exs := asStrList excludeJ
      match spoon_search_by_ingredients spoonKey ings exs 3 net with
      | .ok results =>
        { metas := (jsonArr results).map metaOfJson, gen := [], errs := []
        , calls := [.spoonByIngredients ings exs 3] }
      | .error e =>
        { metas := [], gen := [], errs := ["Spoonacular search error: " ++ errStr e]
        , calls := [.spoonByIngredients ings exs 3] }
    else
      let q := searchQueryOf parsed user_input
      match spoon_search_by_query spoonKey q 3 net with
      | .ok results =>
        { metas := (jsonArr results).map metaOfJson, gen := [], errs := []
        , calls := [.spoonByQuery q 3] }
      | .error e =>
        { metas := [], gen := [], errs := ["Spoonacular search error: " ++ errStr e]
        , calls := [.spoonByQuery q 3] }
  else if isSpecific intent then
    let q := searchQueryOf parsed user_input
    match spoon_search_by_query spoonKey q 1 net with
    | .ok results =>
      { metas := (jsonArr results).map metaOfJson, gen := [], errs := []
      , calls := [.spoonByQuery q 1] }
    | .error e =>
      { metas := [], gen := [], errs := ["Spoonacular search error: " ++ errStr e]
      , calls := [.spoonByQuery q 1] }
  else
    match call_fireworks_chat fwKey fwG with
    | .ok answer =>
      { metas := [], gen := [.str answer], errs := [], calls := [.fireworksGeneral user_input] }
    | .error e =>
      { metas := [], gen := [], errs := ["Dobby error: " ++ errStr e]
      , calls := [.fireworksGeneral user_input] }

/-- Lines 383–391: the transcript entry appended for one recipe
metadata — the formatted detail (with the image markdown prepended when
the metadata has a truthy image), or, when the detail fetch or the
formatting raises, the "could not fetch" note naming that title. -/
def detailEntry (spoonKey : String) (net : SpoonReq → NetOut) (m : RecipeMeta) : Json :=
  match (do
    let info ← spoon_get_recipe_information spoonKey m.id net
    let formatted ← format_recipe_for_chat info
    pure (if truthy m.image then "![recipeimage](" ++ pyStr m.image ++ ")\n\n" ++ formatted
          else formatted) : Except PyErr String) with
  | .ok t => .str t
  | .error e => .str ("Could not fetch details for " ++ pyStr m.title ++ ": " ++ errStr e)

/-- Lines 381–391: the detail loop — one transcript entry and one
information call per metadata entry, in order; a failure for one entry
does not affect the others. -/
def detailPhase (spoonKey : String) (net : SpoonReq → NetOut) (metas : List RecipeMeta) :
    List Json × List ExtCall :=
  (metas.map (detailEntry spoonKey net), metas.map (fun m => ExtCall.spoonInformation m.id))

/-- Everything one executed turn appends or shows: the user entry, the
assistant transcript entries, the transient UI errors, and the external
calls made. -/
structure TurnResult where
  pastAdds : List String
  generatedAdds : List Json
  uiErrors : List String
  calls : List ExtCall

/-- Model of one executed turn of the submit handler (lines 336–391,
with `submit and user_input` truthy): analysis with fallback, the
summary transcript entry `parsed.get("message", "I will search for
recipes.")`, routing and search, then the detail loop. -/
def runTurn (fwKey spoonKey : String) (loads : JLoads) (fwA fwG : Nat → FwOutcome)
    (net : SpoonReq → NetOut) (user_input : String) : TurnResult :=
  let ap := analysisPhase fwKey loads fwA user_input
  let parsed := ap.1
  let msg := pyGetD parsed "message" (.str "I will search for recipes.")
  let sp := searchPhase fwKey spoonKey fwG net user_input parsed
  let dp := detailPhase spoonKey net sp.metas
  { pastAdds := [user_input]
  , generatedAdds := msg :: sp.gen ++ dp.1
  , uiErrors := ap.2 ++ sp.errs
  , calls := sp.calls ++ dp.2 }

/-! Concrete fixtures used by witness and counterexample theorems. -/

/-- Fireworks oracle whose (only) attempt succeeds with the given
message content. -/
def fwOkWith (s : String) : Nat → FwOutcome :=
  fun _ => .resp 200 ""
    (some (.obj [("choices", .arr [.obj [("message", .obj [("content", .str s)])]])]))

/-- Parsed intent fixture: `find_recipe` with two ingredients. -/
def wIntentFind : Json :=
  .obj [ ("intent", .str "find_recipe")
       , ("ingredients", .arr [.str "potatoes", .str "beef"])
       , ("exclude", .arr []) ]

/-- Parsed intent fixture: `modify_recipe` with an empty ingredient
list and a dish. -/
def wIntentModifyEmpty : Json :=
  .obj [ ("intent", .str "modify_recipe")
       , ("ingredients", .arr [])
       , ("dish", .str "pizza") ]

/-- Parsed intent fixture: `specific_recipe` with a dish. -/
def wIntentSpecific : Json :=
  .obj [("intent", .str "specific_recipe"), ("dish", .str "pizza")]

/-- Parsed intent fixture: `general`. -/
def wIntentGeneral : Json := .obj [("intent", .str "general")]

/-- Search-result entry fixture for the detail loop. -/
def c8r (i : Int) (t : String) : Json :=
  .obj [("id", .num i), ("title", .str t), ("image", .null)]

/-- Recipe-detail fixture with flat instructions. -/
def c8info (t : String) : Json :=
  .obj [("title", .str t), ("instructions", .str "Cook. Serve.")]

/-- Spoonacular oracle: the ingredient search returns three summaries,
the detail fetch succeeds for ids 1 and 3 and fails with 404 for id 2. -/
def c8Net : SpoonReq → NetOut := fun req =>
  if req.path = "/recipes/findByIngredients" then
    .resp 200 (some (.arr [c8r 1 "Alpha", c8r 2 "Beta", c8r 3 "Gamma"]))
  else if req.path = "/recipes/1/information" then .resp 200 (some (c8info "Alpha"))
  else if req.path = "/recipes/2/information" then .resp 404 none
  else if req.path = "/recipes/3/information" then .resp 200 (some (c8info "Gamma"))
  else .resp 500 none

/-- Recipe-detail fixture exercising every section of the formatter. -/
def c5Info : Json :=
  .obj
    [ ("title", .str "Cake")
    , ("readyInMinutes", .num 30)
    , ("servings", .num 2)
    , ("extendedIngredients", .arr
        [ .obj [("originalString", .str "2 eggs")]
        , .obj [("name", .str "flour"), ("amount", .num 1), ("unit", .str "cup")] ])
    , ("analyzedInstructions", .arr
        [ .obj [("steps", .arr [.obj [("step", .str "Mix")], .obj [("step", .str "Bake")]])] ])
    , ("sourceUrl", .str "http://example.test/cake") ]

/-! Auxiliary lemmas. -/

theorem lookupJ_append (k k' : String) (v : Json) (l : List (String × Json)) :
    lookupJ k (l ++ [(k', v)])
      = match lookupJ k l with
        | some w => some w
        | none => if k' = k then some v else none := by
  induction l with
  | nil => simp [lookupJ]
  | cons kv t ih =>
    by_cases h : kv.1 = k
    · simp [lookupJ, h]
    · simp [lookupJ, h, ih]

theorem lookupJ_pySetdefault_other (k k' : String) (v : Json) (kvs : List (String × Json))
    (h : k' ≠ k) : lookupJ k (pySetdefault kvs k' v) = lookupJ k kvs := by
  unfold pySetdefault
  split
  · rfl
  · rw [lookupJ_append]
    cases hl : lookupJ k kvs with
    | some w => rfl
    | none => simp [h]

theorem lookupJ_pySetdefault_absent (k : String) (v : Json) (kvs : List (String × Json))
    (h : lookupJ k kvs = none) : lookupJ k (pySetdefault kvs k v) = some v := by
  unfold pySetdefault
  rw [if_neg (by simp [h]), lookupJ_append, h]
  simp

theorem lookupJ_pySetdefault_some (k k' : String) (v w : Json) (kvs : List (String × Json))
    (h : lookupJ k kvs = some w) : lookupJ k (pySetdefault kvs k' v) = some w := by
  unfold pySetdefault
  split
  · exact h
  · rw [lookupJ_append, h]

/-! Claim theorems. -/

/-- C7: for every model output that parses as a JSON object, fields
missing from the object are defaulted by the intent-analysis step:
`ingredients` and `exclude` to the empty array, `dish` to null,
`message` to the empty string, and `intent` to `"find_recipe"`
(the code-level spelling of the spec's `find_by_ingredients`,
`excluded` and `summary`). -/
theorem C7_missing_field_defaults (kvs : List (String × Json)) :
    (lookupJ "ingredients" kvs = none →
      lookupJ "ingredients" (applyDefaults kvs) = some (Json.arr []))
    ∧ (lookupJ "exclude" kvs = none →
      lookupJ "exclude" (applyDefaults kvs) = some (Json.arr []))
    ∧ (lookupJ "dish" kvs = none →
      lookupJ "dish" (applyDefaults kvs) = some Json.null)
    ∧ (lookupJ "message" kvs = none →
      lookupJ "message" (applyDefaults kvs) = some (Json.str ""))
    ∧ (lookupJ "intent" kvs = none →
      lookupJ "intent" (applyDefaults kvs) = some (Json.str "find_recipe")) := by
  simp only [applyDefaults]
  set K1 := pySetdefault kvs "ingredients" (pyOr (dictGet kvs "ingredients") (Json.arr [])) with hK1
  set K2 := pySetdefault K1 "exclude" (pyOr (dictGet K1 "exclude") (Json.arr [])) with hK2
  set K3 := pySetdefault K2 "dish" (dictGet K2 "dish") with hK3
  set K4 := pySetdefault K3 "message" (pyOr (dictGet K3 "message") (Json.str "")) with hK4
  refine ⟨?_, ?_, ?_, ?_, ?_⟩
  · intro h
    rw [lookupJ_pySetdefault_other _ _ _ _ (by decide),
        hK4, lookupJ_pySetdefault_other _ _ _ _ (by decide),
        hK3, lookupJ_pySetdefault_other _ _ _ _ (by decide),
        hK2, lookupJ_pySetdefault_other _ _ _ _ (by decide),
        hK1, lookupJ_pySetdefault_absent _ _ _ h]
    simp [dictGet, h, pyOr, truthy]
  · intro h
    have h1 : lookupJ "exclude" K1 = none := by
      rw [hK1, lookupJ_pySetdefault_other _ _ _ _ (by decide)]; exact h
    rw [lookupJ_pySetdefault_other _ _ _ _ (by decide),
        hK4, lookupJ_pySetdefault_other _ _ _ _ (by decide),
        hK3, lookupJ_pySetdefault_other _ _ _ _ (by decide),
        hK2, lookupJ_pySetdefault_absent _ _ _ h1]
    simp [dictGet, h1, pyOr, truthy]
  · intro h
    have h2 : lookupJ "dish" K2 = none := by
      rw [hK2, lookupJ_pySetdefault_other _ _ _ _ (by decide),
          hK1, lookupJ_pySetdefault_other _ _ _ _ (by decide)]
      exact h
    rw [lookupJ_pySetdefault_other _ _ _ _ (by decide),
        hK4, lookupJ_pySetdefault_other _ _ _ _ (by decide),
        hK3, lookupJ_pySetdefault_absent _ _ _ h2]
    simp [dictGet, h2]
  · intro h
    have h3 : lookupJ "message" K3 = none := by
      rw [hK3, lookupJ_pySetdefault_other _ _ _ _ (by decide),
          hK2, lookupJ_pySetdefault_other _ _ _ _ (by decide),
          hK1, lookupJ_pySetdefault_other _ _ _ _ (by decide)]
      exact h
    rw [lookupJ_pySetdefault_other _ _ _ _ (by decide),
        hK4, lookupJ_pySetdefault_absent _ _ _ h3]
    simp [dictGet, h3, pyOr, truthy]
  · intro h
    have h4 : lookupJ "intent" K4 = none := by
      rw [hK4, lookupJ_pySetdefault_other _ _ _ _ (by decide),
          hK3, lookupJ_pySetdefault_other _ _ _ _ (by decide),
          hK2, lookupJ_pySetdefault_other _ _ _ _ (by decide),
          hK1, lookupJ_pySetdefault_other _ _ _ _ (by decide)]
      exact h
    rw [lookupJ_pySetdefault_absent _ _ _ h4]
    simp [dictGet, h4, pyOr, truthy]

/-- C7 witness: on the empty JSON object every field receives its
default. -/
theorem C7_witness :
    lookupJ "ingredients" (applyDefaults []) = some (Json.arr [])
    ∧ lookupJ "exclude" (applyDefaults []) = some (Json.arr [])
    ∧ lookupJ "dish" (applyDefaults []) = some Json.null
    ∧ lookupJ "message" (applyDefaults []) = some (Json.str "")
    ∧ lookupJ "intent" (applyDefaults []) = some (Json.str "find_recipe") :=
  ⟨(C7_missing_field_defaults []).1 rfl,
   (C7_missing_field_defaults []).2.1 rfl,
   (C7_missing_field_defaults []).2.2.1 rfl,
   (C7_missing_field_defaults []).2.2.2.1 rfl,
   (C7_missing_field_defaults []).2.2.2.2 rfl⟩

/-- C10: the defaulting applies only to keys absent from the parsed
JSON object — a key explicitly present, in particular one set to null,
keeps its value and is not replaced by the documented default. -/
theorem C10_null_fields_preserved (kvs : List (String × Json)) (k : String) (v : Json)
    (h : lookupJ k kvs = some v) :
    lookupJ k (applyDefaults kvs) = some v := by
  simp only [applyDefaults]
  exact lookupJ_pySetdefault_some _ _ _ _ _
    (lookupJ_pySetdefault_some _ _ _ _ _
      (lookupJ_pySetdefault_some _ _ _ _ _
        (lookupJ_pySetdefault_some _ _ _ _ _
          (lookupJ_pySetdefault_some _ _ _ _ _ h))))

/-- C10 witness: an explicit `"message": null` and an explicit
`"ingredients": null` survive defaulting as null. -/
theorem C10_witness :
    lookupJ "message" (applyDefaults [("message", Json.null)]) = some Json.null
    ∧ lookupJ "ingredients" (applyDefaults [("ingredients", Json.null)]) = some Json.null :=
  ⟨C10_null_fields_preserved [("message", Json.null)] "message" Json.null rfl,
   C10_null_fields_preserved [("ingredients", Json.null)] "ingredients" Json.null rfl⟩

/-- C1: the analysis step of a turn never propagates an exception — if
the language-model call fails with any error, or the model output is
not loadable JSON, the step produces exactly the fixed fallback intent
`{"intent": "find_recipe", "ingredients": [userText], "dish": null,
"exclude": [], "message": "Searching for recipes based on: " ++
userText}` (the `json.loads` half of the fallback is line 81 of
`app.py`; the model-call half is the `except` at lines 342–344, whose
fallback dict is identical). -/
theorem C1_intent_fallback_on_error_or_bad_json (fwKey user : String) (loads : JLoads)
    (fwA : Nat → FwOutcome)
    (h : (∃ e, call_fireworks_chat fwKey fwA = .error e)
        ∨ (∃ raw, call_fireworks_chat fwKey fwA = .ok raw
            ∧ loads (extract_json_text raw.toList) = none)) :
    (analysisPhase fwKey loads fwA user).1 = fallbackIntent user := by
  unfold analysisPhase analyze_user_text
  rcases h with ⟨e, he⟩ | ⟨raw, hok, hl⟩
  · rw [he]
  · rw [hok]
    simp only [hl]

/-- C1 witness: with a model that answers non-JSON text, the analysis
step returns the fallback intent for the input `"eggs"`. -/
theorem C1_witness :
    (analysisPhase "k" (fun _ => none)
      (fun _ => FwOutcome.resp 200 ""
        (some (Json.obj [("choices", Json.arr [Json.obj
          [("message", Json.obj [("content", Json.str "gibberish")])]])])))
      "eggs").1 = fallbackIntent "eggs" :=
  C1_intent_fallback_on_error_or_bad_json "k" "eggs" (fun _ => none) _
    (Or.inr ⟨"gibberish", rfl, rfl⟩)

/-- C3 counterexample: the language-model client does not retry.  With
an attempt sequence whose first attempt times out and whose second
attempt would succeed with content `"hello"`, the code fails with the
timeout, while a client with the claimed retry behaviour would return
`"hello"`. -/
theorem C3_counterexample :
    call_fireworks_chat "k"
      (fun i => if i = 0 then FwOutcome.timeout
        else FwOutcome.resp 200 "" (some (Json.obj [("choices", Json.arr
          [Json.obj [("message", Json.obj [("content", Json.str "hello")])]])])))
      = .error .timeoutError
    ∧ claimed_call_with_retries "k"
      (fun i => if i = 0 then FwOutcome.timeout
        else FwOutcome.resp 200 "" (some (Json.obj [("choices", Json.arr
          [Json.obj [("message", Json.obj [("content", Json.str "hello")])]])])))
      = .ok "hello"
    ∧ (Except.error PyErr.timeoutError : Except PyErr String) ≠ .ok "hello" :=
  ⟨rfl, rfl, fun h => Except.noConfusion h⟩

/-- C3 (amended): the language-model client makes exactly one HTTP
attempt — a connect/read timeout surfaces immediately with no retry and
no backoff, a non-200 status raises immediately with the status and
body, and the result depends only on the first attempt's outcome. -/
theorem C3_single_attempt_no_retry (apiKey : String) (net : Nat → FwOutcome)
    (h : apiKey ≠ "") :
    (net 0 = FwOutcome.timeout → call_fireworks_chat apiKey net = .error .timeoutError)
    ∧ (∀ s t b, net 0 = FwOutcome.resp s t b → s ≠ 200 →
        call_fireworks_chat apiKey net
          = .error (.runtimeError ("Fireworks API error " ++ toString s ++ ": " ++ t)))
    ∧ call_fireworks_chat apiKey net = call_fireworks_chat apiKey (fun _ => net 0) := by
  simp only [call_fireworks_chat, if_neg h]
  refine ⟨?_, ?_, trivial⟩
  · intro h0
    rw [h0]
    rfl
  · intro s t b h0 hs
    rw [h0]
    simp [fwHandle, hs]

/-- C3 witness: a client with a key set and a first attempt that times
out fails with the timeout. -/
theorem C3_witness :
    call_fireworks_chat "k" (fun _ => FwOutcome.timeout) = .error .timeoutError :=
  (C3_single_attempt_no_retry "k" (fun _ => FwOutcome.timeout) (by decide)).1 rfl

theorem findPat_of_take3 (l : List Char) (h : l.take 3 = fenceChars) :
    findPat fenceChars l = some ([], l.drop 3) := by
  cases l with
  | nil => simp [fenceChars] at h
  | cons c rest =>
    unfold findPat
    rw [show fenceChars.length = 3 from rfl, if_pos h]

/-- C6 counterexample: on the fully fenced model output
"```json\n{"intent":"general"}\n```" the code's extraction yields the
empty text (everything after the closing fence), not the brace-delimited
substring that the claim's rule ("strip a leading code-fence marker,
then cut from the first brace to the last") would produce. -/
theorem C6_counterexample :
    extract_json_text ("```json\n\x7b\"intent\":\"general\"\x7d\n```".toList) = []
    ∧ claimed_extract_json_text ("```json\n\x7b\"intent\":\"general\"\x7d\n```".toList)
        = "\x7b\"intent\":\"general\"\x7d".toList
    ∧ extract_json_text ("```json\n\x7b\"intent\":\"general\"\x7d\n```".toList)
        ≠ claimed_extract_json_text ("```json\n\x7b\"intent\":\"general\"\x7d\n```".toList) := by
  refine ⟨by decide, by decide, by decide⟩

/-- C6 (amended): the extraction strips the output and, when it starts
with a code fence, takes what Python's `split("```", 2)[-1]` leaves —
the text after the second fence marker when one exists (so fully fenced
output reduces to what follows the closing fence), or the text after
the single leading marker otherwise — re-strips, and then parses exactly
the substring from the first `{` to the last `}` (the whole text when
either brace is absent).  When at most one fence marker occurs this
agrees with the claim's rule. -/
theorem C6_extraction_amended :
    (∀ raw : List Char, hasSecondFence (pyStrip raw) = false →
      extract_json_text raw = claimed_extract_json_text raw)
    ∧ (∀ raw p1 r1 p2 r2 : List Char, (pyStrip raw).take 3 = fenceChars →
        findPat fenceChars (pyStrip raw) = some (p1, r1) →
        findPat fenceChars r1 = some (p2, r2) →
        extract_json_text raw = braceSlice (pyStrip r2)) := by
  constructor
  · intro raw h
    unfold extract_json_text claimed_extract_json_text
    by_cases hf : (pyStrip raw).take 3 = fenceChars
    · have hfind := findPat_of_take3 (pyStrip raw) hf
      unfold hasSecondFence at h
      rw [hfind] at h
      simp only at h
      have hnone : findPat fenceChars ((pyStrip raw).drop 3) = none := by
        cases hc : findPat fenceChars ((pyStrip raw).drop 3) with
        | none => rfl
        | some pr => rw [hc] at h; simp at h
      simp only [if_pos hf, fenceTail, hfind, hnone]
    · simp only [if_neg hf]
  · intro raw p1 r1 p2 r2 h3 hf1 hf2
    unfold extract_json_text
    simp only [if_pos h3, fenceTail, hf1, hf2]

/-- C6 witness: on output with a single leading fence the code's
extraction and the claimed rule agree, and on output with two fence
markers the code takes the brace slice of the stripped text after the
second marker. -/
theorem C6_witness :
    extract_json_text ("```json\n\x7b\"a\":1\x7d".toList)
        = claimed_extract_json_text ("```json\n\x7b\"a\":1\x7d".toList)
    ∧ extract_json_text ("```a```b".toList) = braceSlice (pyStrip "b".toList) :=
  ⟨C6_extraction_amended.1 ("```json\n\x7b\"a\":1\x7d".toList) (by decide),
   C6_extraction_amended.2 ("```a```b".toList) [] ("a```b".toList) ("a".toList) ("b".toList)
     (by decide) (by decide) (by decide)⟩

theorem spoonHandleQuery_ne_runtime (o : NetOut) (m : String) :
    spoonHandleQuery o ≠ .error (.runtimeError m) := by
  cases o with
  | err => simp [spoonHandleQuery, spoonHandle, Except.map]
  | resp s b =>
    unfold spoonHandleQuery spoonHandle
    by_cases hs : 400 ≤ s ∧ s < 600
    · simp [hs, Except.map]
    · cases b <;> simp [hs, Except.map]

/-- C9: unlike `spoon_search_by_ingredients`, the free-text search
performs its outbound call even with no Spoonacular credential — for
every query it is exactly the handling of the response to its request,
that request carries the empty `apiKey` parameter, and no
missing-credential `RuntimeError` is ever produced; by contrast the
ingredient search with an empty key raises that `RuntimeError` before
any network call. -/
theorem C9_query_no_credential_check :
    (∀ (query : String) (number : Nat) (net : SpoonReq → NetOut),
        spoon_search_by_query "" query number net
          = spoonHandleQuery (net (queryReq "" query number)))
    ∧ (∀ (query : String) (number : Nat), ("apiKey", "") ∈ (queryReq "" query number).params)
    ∧ (∀ (query : String) (number : Nat) (net : SpoonReq → NetOut),
        spoon_search_by_query "" query number net
          ≠ .error (.runtimeError "SPOONACULAR_API_KEY not set in environment"))
    ∧ (∀ (ingredients exclude : List String) (number : Nat) (net : SpoonReq → NetOut),
        spoon_search_by_ingredients "" ingredients exclude number net
          = .error (.runtimeError "SPOONACULAR_API_KEY not set in environment")) := by
  refine ⟨fun _ _ _ => rfl, ?_, ?_, fun _ _ _ _ => rfl⟩
  · intro q n
    simp [queryReq]
  · intro q n net
    exact spoonHandleQuery_ne_runtime (net (queryReq "" q n)) _

/-- C9 witness: the free-text search with an empty credential reaches
the network and does not raise the missing-credential error, while the
ingredient search with an empty credential raises it. -/
theorem C9_witness :
    spoon_search_by_query "" "pasta" 4
        (fun _ => NetOut.resp 200 (some (Json.obj [("results", Json.arr [])])))
      ≠ .error (.runtimeError "SPOONACULAR_API_KEY not set in environment")
    ∧ spoon_search_by_ingredients "" ["tomato"] [] 4
        (fun _ => NetOut.resp 200 (some (Json.arr [])))
      = .error (.runtimeError "SPOONACULAR_API_KEY not set in environment") :=
  ⟨C9_query_no_credential_check.2.2.1 "pasta" 4 _,
   C9_query_no_credential_check.2.2.2 ["tomato"] [] 4 _⟩

theorem asStrList_map_str (l : List String) :
    asStrList (Json.arr (l.map Json.str)) = l := by
  show List.map jsonToStr (List.map Json.str l) = l
  rw [List.map_map]
  have h : jsonToStr ∘ Json.str = id := funext fun s => rfl
  rw [h, List.map_id]

theorem pyOr_arr_empty (l : List Json) : pyOr (Json.arr l) (Json.arr []) = Json.arr l := by
  cases l <;> simp [pyOr, truthy]

theorem truthy_map_str_ne (l : List String) (h : l ≠ []) :
    truthy (Json.arr (l.map Json.str)) = true := by
  cases l with
  | nil => exact absurd rfl h
  | cons a t => rfl

theorem isFindOrModify_of_specific (j : Json) (h : isSpecific j = true) :
    isFindOrModify j = false := by
  cases j
  case str s =>
    have hs : s = "specific_recipe" := by simpa [isSpecific] using h
    subst hs
    rfl
  all_goals rfl

/-- C4: the turn routes on the parsed intent: `find_recipe` or
`modify_recipe` (the code spelling of `find_by_ingredients`/`modify`)
with a non-empty ingredients list calls the ingredient search with the
ingredients, the excluded list and limit 3; with an empty ingredients
list it calls the free-text search with `dish or userText` and limit 3;
`specific_recipe` (the spelling of `find_by_dish`) calls the free-text
search with `dish or userText` and limit 1; and `general` performs no
recipe search at all — its only external call is one generic-prompt
language-model call whose text, when the call succeeds, is appended as
exactly one additional assistant entry.  The trailing conjuncts settle
`dish or userText`: a non-empty string dish is used as the query,
otherwise the raw user text is. -/
theorem C4_intent_routing (fwKey spoonKey user : String) (fwG : Nat → FwOutcome)
    (net : SpoonReq → NetOut) (parsed : Json) :
    (∀ ings exs : List String,
      isFindOrModify (pyGet parsed "intent") = true →
      pyGet parsed "ingredients" = Json.arr (ings.map Json.str) → ings ≠ [] →
      pyGet parsed "exclude" = Json.arr (exs.map Json.str) →
      (searchPhase fwKey spoonKey fwG net user parsed).calls
        = [ExtCall.spoonByIngredients ings exs 3])
    ∧ (isFindOrModify (pyGet parsed "intent") = true →
      pyGet parsed "ingredients" = Json.arr [] →
      (searchPhase fwKey spoonKey fwG net user parsed).calls
        = [ExtCall.spoonByQuery (searchQueryOf parsed user) 3])
    ∧ (isSpecific (pyGet parsed "intent") = true →
      (searchPhase fwKey spoonKey fwG net user parsed).calls
        = [ExtCall.spoonByQuery (searchQueryOf parsed user) 1])
    ∧ (pyGet parsed "intent" = Json.str "general" →
      (searchPhase fwKey spoonKey fwG net user parsed).calls
        = [ExtCall.fireworksGeneral user]
      ∧ (searchPhase fwKey spoonKey fwG net user parsed).metas = []
      ∧ ∀ ans, call_fireworks_chat fwKey fwG = .ok ans →
          (searchPhase fwKey spoonKey fwG net user parsed).gen = [Json.str ans])
    ∧ (∀ d, pyGet parsed "dish" = Json.str d → d ≠ "" → searchQueryOf parsed user = d)
    ∧ (pyGet parsed "dish" = Json.null → searchQueryOf parsed user = user) := by
  refine ⟨?_, ?_, ?_, ?_, ?_, ?_⟩
  · intro ings exs hIM hIng hne hExc
    simp only [searchPhase, hIM, hIng, hExc, pyOr_arr_empty, truthy_map_str_ne ings hne,
      if_true, asStrList_map_str]
    cases spoon_search_by_ingredients spoonKey ings exs 3 net <;> rfl
  · intro hIM hIng
    simp only [searchPhase, hIM, hIng, pyOr_arr_empty, if_true]
    have ht : truthy (Json.arr []) = false := rfl
    simp only [ht, Bool.false_eq_true, if_false]
    cases spoon_search_by_query spoonKey (searchQueryOf parsed user) 3 net <;> rfl
  · intro hSp
    have hIM := isFindOrModify_of_specific _ hSp
    simp only [searchPhase, hIM, hSp, Bool.false_eq_true, if_false, if_true]
    cases spoon_search_by_query spoonKey (searchQueryOf parsed user) 1 net <;> rfl
  · intro hG
    have h1 : isFindOrModify (pyGet parsed "intent") = false := by rw [hG]; rfl
    have h2 : isSpecific (pyGet parsed "intent") = false := by rw [hG]; rfl
    simp only [searchPhase, h1, h2, Bool.false_eq_true, if_false]
    cases call_fireworks_chat fwKey fwG with
    | ok a =>
      refine ⟨rfl, rfl, ?_⟩
      intro ans hans
      cases hans
      rfl
    | error e =>
      refine ⟨rfl, rfl, ?_⟩
      intro ans hans
      exact absurd hans (fun h => Except.noConfusion h)
  · intro d hd hdne
    simp [searchQueryOf, hd, pyOr, truthy, hdne, pyStr]
  · intro hd
    simp [searchQueryOf, hd, pyOr, truthy, pyStr]

/-- C4 witness: each routing branch at a concrete parsed intent —
ingredient search with limit 3, free-text search with limit 3 and 1,
and the general branch with its single model-sourced entry. -/
theorem C4_witness :
    (searchPhase "k" "s" (fwOkWith "hi") (fun _ => NetOut.err) "u" wIntentFind).calls
      = [ExtCall.spoonByIngredients ["potatoes", "beef"] [] 3]
    ∧ (searchPhase "k" "s" (fwOkWith "hi") (fun _ => NetOut.err) "u" wIntentModifyEmpty).calls
      = [ExtCall.spoonByQuery (searchQueryOf wIntentModifyEmpty "u") 3]
    ∧ (searchPhase "k" "s" (fwOkWith "hi") (fun _ => NetOut.err) "u" wIntentSpecific).calls
      = [ExtCall.spoonByQuery (searchQueryOf wIntentSpecific "u") 1]
    ∧ (searchPhase "k" "s" (fwOkWith "hi") (fun _ => NetOut.err) "u" wIntentGeneral).calls
      = [ExtCall.fireworksGeneral "u"]
    ∧ (searchPhase "k" "s" (fwOkWith "hi") (fun _ => NetOut.err) "u" wIntentGeneral).gen
      = [Json.str "hi"]
    ∧ searchQueryOf wIntentSpecific "u" = "pizza" :=
  ⟨(C4_intent_routing "k" "s" "u" (fwOkWith "hi") (fun _ => NetOut.err) wIntentFind).1
      ["potatoes", "beef"] [] rfl rfl (by decide) rfl,
   (C4_intent_routing "k" "s" "u" (fwOkWith "hi") (fun _ => NetOut.err) wIntentModifyEmpty).2.1
      rfl rfl,
   (C4_intent_routing "k" "s" "u" (fwOkWith "hi") (fun _ => NetOut.err) wIntentSpecific).2.2.1
      rfl,
   ((C4_intent_routing "k" "s" "u" (fwOkWith "hi") (fun _ => NetOut.err) wIntentGeneral).2.2.2.1
      rfl).1,
   ((C4_intent_routing "k" "s" "u" (fwOkWith "hi") (fun _ => NetOut.err) wIntentGeneral).2.2.2.1
      rfl).2.2 "hi" rfl,
   (C4_intent_routing "k" "s" "u" (fwOkWith "hi") (fun _ => NetOut.err) wIntentSpecific).2.2.2.2.1
      "pizza" rfl (by decide)⟩

/-- C8: when the ingredient search of a turn succeeds with a list of
summaries, the transcript gains the summary entry followed by exactly
one entry per returned summary, in the original order — the formatted
recipe when its detail fetch and formatting succeed, and the
"could not fetch" note naming that title otherwise — so one failing
detail fetch does not abort the remaining ones; the turn's calls are the
search followed by one detail fetch per summary, in order. -/
theorem C8_detail_failure_isolated (fwKey spoonKey user : String) (loads : JLoads)
    (fwA fwG : Nat → FwOutcome) (net : SpoonReq → NetOut) (parsed : Json)
    (errsA : List String) (ings exs : List String) (rs : List Json)
    (hA : analysisPhase fwKey loads fwA user = (parsed, errsA))
    (hI : pyGet parsed "intent" = Json.str "find_recipe")
    (hIng : pyGet parsed "ingredients" = Json.arr (ings.map Json.str))
    (hne : ings ≠ [])
    (hExc : pyGet parsed "exclude" = Json.arr (exs.map Json.str))
    (hs : spoon_search_by_ingredients spoonKey ings exs 3 net = .ok (Json.arr rs)) :
    (runTurn fwKey spoonKey loads fwA fwG net user).generatedAdds
      = pyGetD parsed "message" (Json.str "I will search for recipes.")
        :: (rs.map metaOfJson).map (detailEntry spoonKey net)
    ∧ (runTurn fwKey spoonKey loads fwA fwG net user).generatedAdds.length = rs.length + 1
    ∧ (runTurn fwKey spoonKey loads fwA fwG net user).calls
      = ExtCall.spoonByIngredients ings exs 3
        :: (rs.map metaOfJson).map (fun m => ExtCall.spoonInformation m.id) := by
  have hIM : isFindOrModify (pyGet parsed "intent") = true := by rw [hI]; rfl
  unfold runTurn
  rw [hA]
  simp only [searchPhase, hIM, hIng, hExc, pyOr_arr_empty, truthy_map_str_ne ings hne,
    if_true, asStrList_map_str, hs]
  refine ⟨by simp [detailPhase, jsonArr], ?_, by simp [detailPhase, jsonArr]⟩
  simp [detailPhase, jsonArr]

/-- C8 witness: three summaries, the middle detail fetch fails — the
transcript is the summary entry plus three per-recipe entries in
order, and the middle entry is the "could not fetch" note for that
title. -/
theorem C8_witness :
    (runTurn "k" "s" (fun _ => none) (fun _ => FwOutcome.timeout) (fun _ => FwOutcome.timeout)
        c8Net "x").generatedAdds
      = pyGetD (fallbackIntent "x") "message" (Json.str "I will search for recipes.")
        :: ([c8r 1 "Alpha", c8r 2 "Beta", c8r 3 "Gamma"].map metaOfJson).map (detailEntry "s" c8Net)
    ∧ (runTurn "k" "s" (fun _ => none) (fun _ => FwOutcome.timeout) (fun _ => FwOutcome.timeout)
        c8Net "x").generatedAdds.length = 4
    ∧ detailEntry "s" c8Net (metaOfJson (c8r 2 "Beta"))
      = Json.str ("Could not fetch details for Beta: " ++ errStr (.httpStatusError 404)) :=
  have h := C8_detail_failure_isolated "k" "s" "x" (fun _ => none) (fun _ => FwOutcome.timeout)
    (fun _ => FwOutcome.timeout) c8Net (fallbackIntent "x") ["Analysis error: timeout"]
    ["x"] [] [c8r 1 "Alpha", c8r 2 "Beta", c8r 3 "Gamma"]
    rfl rfl rfl (by decide) rfl rfl
  ⟨h.1, h.2.1, rfl⟩

/-- C2 counterexample: a concrete turn whose recipe search fails with a
500 status.  The transcript gains exactly one entry — the intent
summary — and not a second assistant entry describing the failure; the
failure text appears only as a transient UI error. -/
theorem C2_counterexample :
    (runTurn "k" "s" (fun _ => none) (fwOkWith "gibberish") (fun _ => FwOutcome.timeout)
        (fun _ => NetOut.resp 500 none) "x").generatedAdds
      = [Json.str "Searching for recipes based on: x"]
    ∧ (runTurn "k" "s" (fun _ => none) (fwOkWith "gibberish") (fun _ => FwOutcome.timeout)
        (fun _ => NetOut.resp 500 none) "x").generatedAdds.length = 1
    ∧ (runTurn "k" "s" (fun _ => none) (fwOkWith "gibberish") (fun _ => FwOutcome.timeout)
        (fun _ => NetOut.resp 500 none) "x").uiErrors
      = ["Spoonacular search error: HTTP error 500"] :=
  ⟨rfl, rfl, rfl⟩

/-- C2 (amended): if the recipe search call itself fails during a turn,
the transcript gains exactly the intent-summary entry; the failure
description is surfaced as a transient UI error message, not as a
transcript entry; and no detail fetches are performed for that turn
(the turn's only external recipe call is the failed search). -/
theorem C2_search_failure_transcript (fwKey spoonKey user : String) (loads : JLoads)
    (fwA fwG : Nat → FwOutcome) (net : SpoonReq → NetOut) (parsed : Json)
    (errsA : List String) (ings exs : List String) (e : PyErr)
    (hA : analysisPhase fwKey loads fwA user = (parsed, errsA))
    (hI : pyGet parsed "intent" = Json.str "find_recipe")
    (hIng : pyGet parsed "ingredients" = Json.arr (ings.map Json.str))
    (hne : ings ≠ [])
    (hExc : pyGet parsed "exclude" = Json.arr (exs.map Json.str))
    (hs : spoon_search_by_ingredients spoonKey ings exs 3 net = .error e) :
    (runTurn fwKey spoonKey loads fwA fwG net user).generatedAdds
      = [pyGetD parsed "message" (Json.str "I will search for recipes.")]
    ∧ (runTurn fwKey spoonKey loads fwA fwG net user).uiErrors
      = errsA ++ ["Spoonacular search error: " ++ errStr e]
    ∧ (runTurn fwKey spoonKey loads fwA fwG net user).calls
      = [ExtCall.spoonByIngredients ings exs 3] := by
  have hIM : isFindOrModify (pyGet parsed "intent") = true := by rw [hI]; rfl
  unfold runTurn
  rw [hA]
  simp only [searchPhase, hIM, hIng, hExc, pyOr_arr_empty, truthy_map_str_ne ings hne,
    if_true, asStrList_map_str, hs]
  refine ⟨?_, ?_, ?_⟩ <;> simp [detailPhase]

/-- C2 witness: a concrete failing search — transcript keeps only the
summary entry, the failure goes to the UI errors, and the only call
made is the search itself. -/
theorem C2_witness :
    (runTurn "k" "s" (fun _ => none) (fwOkWith "gibberish") (fun _ => FwOutcome.timeout)
        (fun _ => NetOut.resp 503 none) "x").generatedAdds
      = [pyGetD (fallbackIntent "x") "message" (Json.str "I will search for recipes.")]
    ∧ (runTurn "k" "s" (fun _ => none) (fwOkWith "gibberish") (fun _ => FwOutcome.timeout)
        (fun _ => NetOut.resp 503 none) "x").uiErrors
      = [] ++ ["Spoonacular search error: " ++ errStr (.httpStatusError 503)]
    ∧ (runTurn "k" "s" (fun _ => none) (fwOkWith "gibberish") (fun _ => FwOutcome.timeout)
        (fun _ => NetOut.resp 503 none) "x").calls
      = [ExtCall.spoonByIngredients ["x"] [] 3] :=
  C2_search_failure_transcript "k" "s" "x" (fun _ => none) (fwOkWith "gibberish")
    (fun _ => FwOutcome.timeout) (fun _ => NetOut.resp 503 none) (fallbackIntent "x") []
    ["x"] [] (.httpStatusError 503) rfl rfl rfl (by decide) rfl rfl

theorem enumFrom_map_eq_range (f : Nat → Json → String) :
    ∀ (l : List Json) (n : Nat), (List.enumFrom n l).map (fun p => f p.1 p.2)
      = (List.range l.length).map (fun k => f (n + k) (l.getD k Json.null))
  | [], n => rfl
  | a :: t, n => by
    show f n a :: (List.enumFrom (n + 1) t).map (fun p => f p.1 p.2) = _
    rw [enumFrom_map_eq_range f t (n + 1), List.length_cons, List.range_succ_eq_map,
      List.map_cons, List.map_map]
    congr 1
    refine List.map_congr_left fun k _ => ?_
    show f (n + 1 + k) (t.getD k Json.null) = f (n + (k + 1)) (t.getD k Json.null)
    rw [Nat.add_assoc, Nat.add_comm 1 k]

theorem enum_map_eq_range (f : Nat → Json → String) (l : List Json) :
    l.enum.map (fun p => f p.1 p.2)
      = (List.range l.length).map (fun k => f k (l.getD k Json.null)) := by
  rw [show l.enum = List.enumFrom 0 l from rfl, enumFrom_map_eq_range]
  simp only [Nat.zero_add]

theorem numberedSteps_eq_range (steps : List Json) :
    numberedSteps steps
      = (List.range steps.length).map
          (fun k => toString (k + 1) ++ ". " ++ pyStr (steps.getD k Json.null)) :=
  enum_map_eq_range (fun k x => toString (k + 1) ++ ". " ++ pyStr x) steps

/-- C5: the formatter emits, in fixed order, the title line; a
ready-in line only when `readyInMinutes` is truthy (so in particular
only when it is present); a serves line only when `servings` is truthy;
an ingredients block with one line per extracted entry in provider
order, never reordered or deduplicated; a steps block (present exactly
when the step list is non-empty) numbered 1..N with no gaps, where the
step list falls back to splitting the flat `instructions` string on
`". "` when no structured steps exist (that fallback is `stepsOfE`);
and a source line only when `sourceUrl` is truthy. -/
theorem C5_format_structure (info title ready servings extIngs source : Json)
    (ingredients steps : List Json)
    (h1 : pyGetDE info "title" (Json.str "Recipe") = .ok title)
    (h2 : pyGetE info "readyInMinutes" = .ok ready)
    (h3 : pyGetE info "servings" = .ok servings)
    (h4 : pyGetDE info "extendedIngredients" (Json.arr []) = .ok extIngs)
    (h5 : (jsonArr extIngs).mapM ingLineE = .ok ingredients)
    (h6 : stepsOfE info = .ok steps)
    (h7 : pyGetE info "sourceUrl" = .ok source) :
    format_recipe_for_chat info = .ok (String.intercalate "\n\n"
      ( ["**" ++ pyStr title ++ "**"]
        ++ (if truthy ready then ["⏱ Ready in: " ++ pyStr ready ++ " minutes"] else [])
        ++ (if truthy servings then ["🍽 Serves: " ++ pyStr servings] else [])
        ++ ["**Ingredients:**"]
        ++ ingredients.map (fun a => "- " ++ pyStr a)
        ++ (if steps.isEmpty then []
            else "**Steps:**" :: (List.range steps.length).map
              (fun k => toString (k + 1) ++ ". " ++ pyStr (steps.getD k Json.null)))
        ++ (if truthy source then ["🔗 Source: " ++ pyStr source] else []) )) := by
  unfold format_recipe_for_chat
  simp only [h1, h2, h3, h4, h5, h6, h7]
  show Except.ok (String.intercalate "\n\n"
    (formatParts title ready servings source ingredients steps)) = _
  refine congrArg Except.ok (congrArg (String.intercalate "\n\n") ?_)
  unfold formatParts
  by_cases hr : truthy ready <;> by_cases hsv : truthy servings <;>
    by_cases hst : steps.isEmpty <;> by_cases hso : truthy source <;>
    simp [hr, hsv, hst, hso, List.append_assoc, numberedSteps_eq_range]

/-- C5 witness: a detail with every section present — ready, serves,
two ingredient lines in provider order, two structured steps numbered
1 and 2, and a source link. -/
theorem C5_witness :
    format_recipe_for_chat c5Info = .ok (String.intercalate "\n\n"
      ( ["**" ++ pyStr (Json.str "Cake") ++ "**"]
        ++ (if truthy (Json.num 30) then ["⏱ Ready in: " ++ pyStr (Json.num 30) ++ " minutes"] else [])
        ++ (if truthy (Json.num 2) then ["🍽 Serves: " ++ pyStr (Json.num 2)] else [])
        ++ ["**Ingredients:**"]
        ++ [Json.str "2 eggs", Json.str "1 cup flour"].map (fun a => "- " ++ pyStr a)
        ++ (if ([Json.str "Mix", Json.str "Bake"] : List Json).isEmpty then []
            else "**Steps:**" :: (List.range ([Json.str "Mix", Json.str "Bake"] : List Json).length).map
              (fun k => toString (k + 1) ++ ". "
                ++ pyStr (([Json.str "Mix", Json.str "Bake"] : List Json).getD k Json.null)))
        ++ (if truthy (Json.str "http://example.test/cake")
            then ["🔗 Source: " ++ pyStr (Json.str "http://example.test/cake")] else []) )) :=
  C5_format_structure c5Info (Json.str "Cake") (Json.num 30) (Json.num 2)
    (Json.arr
      [ Json.obj [("originalString", Json.str "2 eggs")]
      , Json.obj [("name", Json.str "flour"), ("amount", Json.num 1), ("unit", Json.str "cup")] ])
    (Json.str "http://example.test/cake")
    [Json.str "2 eggs", Json.str "1 cup flour"]
    [Json.str "Mix", Json.str "Bake"]
    rfl rfl rfl rfl rfl rfl rfl

end AidobyCook
